import Mathlib

/-
Verification of the per-element execution core in
sdks/python/apache_beam/runners/common.py (shallow embedding).

Machine integers do not occur in the modelled code; windows, timestamps and
panes are opaque identifiers modelled as Nat.  Fallible code returns
Except BeamErr.  Python in-place mutation of a WindowedValue is modelled by
returning the post-call state of the affected objects alongside the
dispatches, since the source aliases and updates them
(process_outputs, line 1013: windowed_value.windows *= n).
-/

namespace Beam

/-- Windows are opaque; only identity matters to the modelled code. -/
abbrev Window := Nat

/-- Timestamps are opaque; only identity matters to the modelled code. -/
abbrev Timestamp := Nat

/-- Pane metadata is opaque; only identity matters to the modelled code. -/
abbrev PaneInfo := Nat

/-- Python values flowing through the executor: None, numbers, strings and
tuples are all the shapes the modelled code inspects. -/
inductive Val where
  | none
  | nat (n : Nat)
  | str (s : String)
  | pair (a b : Val)
deriving DecidableEq, Repr

/-- Modelled from the spec: WindowedValue (spec section 3) lives in
apache_beam/utils/windowed_value.py, which is not under src/.  The spec fixes
its shape: value, timestamp, an ordered window collection, and pane metadata.
Windows are kept as a list because the source multiplies them
(windows *= n) and destructures them positionally (window, = wv.windows). -/
structure WindowedValue where
  value : Val
  timestamp : Timestamp
  windows : List Window
  pane_info : PaneInfo
deriving DecidableEq, Repr

/-- Default pane carried by a WindowedValue constructed without an explicit
pane argument.  Modelled from the spec: the missing windowed_value.py
constructor takes the pane as a trailing optional argument; when the source
calls it with only (value, timestamp, windows) no pane information is passed,
so the constructed value carries the fixed framework default
(an "unknown" pane), which cannot in general equal the pane of whatever
value the three arguments were drawn from. -/
def PANE_INFO_UNKNOWN : PaneInfo := 0

/-- The three-argument WindowedValue construction used by the source
(lines 458, 667, 1016): pane omitted, hence the framework default pane. -/
def WindowedValue.mk3 (v : Val) (ts : Timestamp) (ws : List Window) :
    WindowedValue :=
  { value := v, timestamp := ts, windows := ws, pane_info := PANE_INFO_UNKNOWN }

/-- Modelled from the spec: with_value on the missing windowed_value.py
returns a copy carrying the new value and the receiver's timestamp, windows
and pane (spec section 4.3: "the result inherits the input's
window/timestamp/pane unchanged"). -/
def WindowedValue.with_value (wv : WindowedValue) (v : Val) : WindowedValue :=
  { wv with value := v }

/-- Python exception classes raised by the modelled code. -/
inductive BeamErr where
  | valueError (msg : String)
  | typeError (msg : String)
  | runtimeError (msg : String)
  | notImplementedError (msg : String)
  | keyError (tag : String)
deriving DecidableEq, Repr

/-- Python list/tuple repetition: l * n. -/
def listMul (l : List α) : Nat → List α
  | 0 => []
  | n + 1 => l ++ listMul l n

/-- Output tags: the source checks isinstance(tag, (str, unicode)); a
non-string tag object is represented by the nonstr constructor. -/
inductive Tag where
  | str (s : String)
  | nonstr (v : Val)
deriving DecidableEq, Repr

/-- Shape of one raw result of a DoFn method after TaggedOutput unwrapping:
the source dispatches on isinstance WindowedValue / TimestampedValue / other
(process_outputs, lines 1009-1022). -/
inductive RawResult where
  | plain (v : Val)
  | windowed (wv : WindowedValue)
  | timestamped (v : Val) (ts : Timestamp)
deriving DecidableEq, Repr

/-- One element of the results iterable handed to process_outputs: an
optional TaggedOutput wrapper around a raw result. -/
structure ProcResult where
  tag : Option Tag
  raw : RawResult
deriving DecidableEq, Repr

/-- A dispatch to a receiver: none is the main receiver, some t the tagged
receiver for tag t. -/
abbrev Dispatch := Option String × WindowedValue

/-- TaggedOutput unwrapping of process_outputs (lines 1003-1008): extract the
tag, raising TypeError when the tag is not a string. -/
def unwrap_tag (r : ProcResult) : Except BeamErr (Option String × RawResult) :=
  match r.tag with
  | Option.none => Except.ok (Option.none, r.raw)
  | some (Tag.str s) => Except.ok (some s, r.raw)
  | some (Tag.nonstr _) => Except.error (BeamErr.typeError "tag is not a string")

/-- Body of the process_outputs loop (lines 1000-1026) for one result.
Inputs: the window-assignment function of the windowing strategy, the set of
registered output tags (the keys of tagged_receivers), the windowed input
element, and one result.  Output: the dispatch performed and the post-call
state of the result object (the source mutates a WindowedValue result in
place at line 1013: windowed_value.windows *= len(input.windows); the other
branches leave the result as received).  The source guard
"windowed_input_element is not None" is True at every call site in the file,
so the input is not optional here. -/
def process_one_result (assign : Timestamp → Val → List Window)
    (tags : List String) (input : WindowedValue) (r : ProcResult) :
    Except BeamErr (Dispatch × ProcResult) :=
  match unwrap_tag r with
  | Except.error e => Except.error e
  | Except.ok (tag, raw) =>
    let step :=
      match raw with
      | RawResult.windowed w =>
        if input.windows.length = 1 then (w, raw)
        else
          let w2 :=
            { w with windows := listMul w.windows input.windows.length }
          (w2, RawResult.windowed w2)
      | RawResult.timestamped v ts =>
        let wv0 := WindowedValue.mk3 v ts (assign ts v)
        if input.windows.length = 1 then (wv0, raw)
        else ({ wv0 with
                  windows := listMul wv0.windows input.windows.length }, raw)
      | RawResult.plain v => (input.with_value v, raw)
    match tag with
    | Option.none =>
      Except.ok ((Option.none, step.1), { r with raw := step.2 })
    | some s =>
      if tags.contains s then
        Except.ok ((some s, step.1), { r with raw := step.2 })
      else Except.error (BeamErr.keyError s)

/-- Iteration of the process_outputs loop over the whole results list,
collecting the dispatches in order and the post-call state of each result. -/
def process_outputs_go (assign : Timestamp → Val → List Window)
    (tags : List String) (input : WindowedValue) :
    List ProcResult → Except BeamErr (List Dispatch × List ProcResult)
  | [] => Except.ok ([], [])
  | r :: rs =>
    match process_one_result assign tags input r with
    | Except.error e => Except.error e
    | Except.ok (d, r2) =>
      match process_outputs_go assign tags input rs with
      | Except.error e => Except.error e
      | Except.ok (ds, rs2) => Except.ok (d :: ds, r2 :: rs2)

/-- OutputProcessor.process_outputs (lines 984-1031).  A results value of
none models Python None (process returned nothing); counter bookkeeping is
metrics-only and omitted. -/
def process_outputs (assign : Timestamp → Val → List Window)
    (tags : List String) (input : WindowedValue)
    (results : Option (List ProcResult)) :
    Except BeamErr (List Dispatch × List ProcResult) :=
  match results with
  | Option.none => Except.ok ([], [])
  | some rs => process_outputs_go assign tags input rs

/-- OutputProcessor.start_bundle_outputs (lines 1033-1038): any non-None
result is rejected; nothing is ever dispatched by this method. -/
def start_bundle_outputs (results : Option (List ProcResult)) :
    Except BeamErr Unit × List Dispatch :=
  match results with
  | Option.none => (Except.ok (), [])
  | some _ =>
    (Except.error (BeamErr.runtimeError
        "Start Bundle should not output any elements"), [])

/-- Modelled from the spec: the parameter-declaration vocabulary
(apache_beam/transforms/core.py DoFn.*Param sentinels) is not under src/.
Spec section 3 fixes it as a closed enumeration of roles; parameterized
roles carry their spec or provider as an opaque Nat.  The other
constructor stands for an ordinary (non-sentinel) default argument value,
which MethodWrapper leaves unclassified. -/
inductive Param where
  | ElementParam
  | WindowParam
  | TimestampParam
  | PaneInfoParam
  | KeyParam
  | SideInputParam
  | StateParam (spec : Nat)
  | TimerParam (spec : Nat)
  | RestrictionParam (provider : Nat)
  | WatermarkEstimatorParam (estimator : Nat)
  | BundleFinalizerParam
  | other (v : Val)
deriving DecidableEq, Repr

/-- Identifier of a framework parameter (core._DoFnParam.param_id); ordinary
default values are not _DoFnParam instances and yield none. -/
def Param.param_id : Param → Option String
  | Param.ElementParam => some "ElementParam"
  | Param.WindowParam => some "WindowParam"
  | Param.TimestampParam => some "TimestampParam"
  | Param.PaneInfoParam => some "PaneInfoParam"
  | Param.KeyParam => some "KeyParam"
  | Param.SideInputParam => some "SideInputParam"
  | Param.StateParam n => some ("StateParam" ++ toString n)
  | Param.TimerParam n => some ("TimerParam" ++ toString n)
  | Param.RestrictionParam n => some ("RestrictionParam" ++ toString n)
  | Param.WatermarkEstimatorParam n =>
      some ("WatermarkEstimatorParam" ++ toString n)
  | Param.BundleFinalizerParam => some "BundleFinalizerParam"
  | Param.other _ => none

/-- Membership in core.DoFn.DoFnProcessParams.  Modelled from the spec:
core.py is not under src/; every role of the closed enumeration is a
process-method role (spec sections 3 and 4.1), ordinary defaults are not. -/
def Param.is_dofn_process_param : Param → Bool
  | Param.other _ => false
  | _ => true

/-- The per-method role information a DoFnSignature aggregates: the list of
default-argument sentinels of each lifecycle method (MethodWrapper.defaults),
plus the stateful flag computed by userstate.is_stateful_dofn. -/
structure DoFnModel where
  process_defaults : List Param
  start_bundle_defaults : List Param
  finish_bundle_defaults : List Param
  setup_defaults : List Param
  teardown_defaults : List Param
  is_stateful : Bool
deriving DecidableEq, Repr

/-- MethodWrapper records a restriction provider iff some process default is
a RestrictionParam (lines 203-205); DoFnSignature.is_splittable_dofn and the
restriction_provider_arg_name test reduce to this. -/
def restriction_provider_present (m : DoFnModel) : Bool :=
  m.process_defaults.any fun p =>
    match p with
    | Param.RestrictionParam _ => true
    | _ => false

/-- DoFnSignature.is_splittable_dofn (lines 322-324). -/
def is_splittable_dofn (m : DoFnModel) : Bool :=
  restriction_provider_present m

/-- DoFnSignature._validate_process (lines 300-308): the param_ids of the
_DoFnParam defaults of the process method must be pairwise distinct. -/
def validate_process (m : DoFnModel) : Except BeamErr Unit :=
  let param_ids := m.process_defaults.filterMap Param.param_id
  if param_ids.Nodup then Except.ok ()
  else Except.error (BeamErr.valueError
      "DoFn has duplicate process method parameters")

/-- DoFnSignature._validate_bundle_method (lines 310-317): no process-only
parameter may occur among the defaults of a bundle method. -/
def validate_bundle_method (defaults : List Param) : Except BeamErr Unit :=
  if defaults.any Param.is_dofn_process_param then
    Except.error (BeamErr.valueError
        "process method-only parameter cannot be used in a bundle method")
  else Except.ok ()

/-- DoFnSignature._validate (lines 294-298), run eagerly by the constructor.
The stateful validation delegates to userstate.validate_stateful_dofn, which
is not under src/ and is modelled as succeeding; setup and teardown defaults
are inspected by no validation step, exactly as in the source. -/
def DoFnSignature_validate (m : DoFnModel) : Except BeamErr Unit :=
  match validate_process m with
  | Except.error e => Except.error e
  | Except.ok _ =>
    match validate_bundle_method m.start_bundle_defaults with
    | Except.error e => Except.error e
    | Except.ok _ => validate_bundle_method m.finish_bundle_defaults

/-- The two invoker variants create_invoker can return. -/
inductive InvokerKind where
  | simpleInvoker
  | perWindowInvoker
deriving DecidableEq, Repr

/-- DoFnInvoker.create_invoker (lines 359-406).  side_inputs holds the
is_globally_windowed flag of each side input (only emptiness matters here);
Python truthiness of the lists and dict maps to isEmpty. -/
def create_invoker (signature : DoFnModel) (side_inputs : List Bool)
    (input_args : List Val) (input_kwargs : List (String × Val))
    (process_invocation : Bool) : InvokerKind :=
  let use_simple_invoker :=
    !process_invocation ||
      (side_inputs.isEmpty && input_args.isEmpty && input_kwargs.isEmpty &&
       signature.process_defaults.isEmpty && !signature.is_stateful)
  if use_simple_invoker then InvokerKind.simpleInvoker
  else InvokerKind.perWindowInvoker

/-- PerWindowInvoker.has_windowed_inputs (lines 518-521): some side input is
not globally windowed, or the Window parameter is requested, or the DoFn is
stateful. -/
def has_windowed_inputs (m : DoFnModel) (side_inputs : List Bool) : Bool :=
  !(side_inputs.all id) ||
    m.process_defaults.contains Param.WindowParam || m.is_stateful

/-- A restriction tracker as the modelled code drives it: the split outcome
it returns for a given fraction, its reported progress, and how the ambient
watermark may advance while its try_split call is in flight (the concurrency
the spec flags in section 5; the advancement function makes the staleness of
the recorded watermark observable). -/
structure TrackerM where
  try_split_fn : Nat → Option (Val × Val)
  current_progress : Nat
  watermark_after : Nat → Nat

/-- The window explosion of PerWindowInvoker.invoke_process (lines 664-668):
one WindowedValue per window, constructed with the three-argument
WindowedValue constructor (pane omitted). -/
def explode_windows (wv : WindowedValue) : List WindowedValue :=
  wv.windows.map fun w => WindowedValue.mk3 wv.value wv.timestamp [w]

/-- One _invoke_process_per_window call per exploded value, in order,
stopping at the first fault (a raised exception aborts the Python loop).
Returns the outcome and the windowed values actually invoked on. -/
def run_per_window (epu : WindowedValue → Except BeamErr Unit) :
    List WindowedValue → Except BeamErr Unit × List WindowedValue
  | [] => (Except.ok (), [])
  | wv :: rest =>
    match epu wv with
    | Except.error e => (Except.error e, [wv])
    | Except.ok _ =>
      let r := run_per_window epu rest
      (r.1, wv :: r.2)

/-- Observable outcome of PerWindowInvoker.invoke_process: the raised fault
or normal return, the windowed values on which _invoke_process_per_window
ran (each is one EPU invocation), and the threadsafe_restriction_tracker
field after the call. -/
structure InvokeOutput where
  res : Except BeamErr Unit
  calls : List WindowedValue
  post_tracker : Option TrackerM

/-- PerWindowInvoker.invoke_process (lines 608-671).  The body of
_invoke_process_per_window is abstracted as epu (its argument binding is
modelled separately by epu_view, its output routing by process_outputs);
initial_restriction and create_tracker are the external restriction-provider
collaborators; pre_tracker is the threadsafe_restriction_tracker field on
entry.  The source conditions written with Python comparison operators are
kept with the same truth values:  len(windows) > 1 and has_windowed_inputs,
then the RestrictionTrackerParam presence check, then the explosion test
has_windowed_inputs and len(windows) != 1. -/
def invoke_process (m : DoFnModel) (side_inputs : List Bool)
    (initial_restriction : Val → Val) (create_tracker : Val → TrackerM)
    (epu : WindowedValue → Except BeamErr Unit)
    (pre_tracker : Option TrackerM)
    (wv : WindowedValue) (restriction_tracker : Option TrackerM) :
    InvokeOutput :=
  let tracker :=
    if is_splittable_dofn m = true ∧ restriction_tracker.isNone = true then
      some (create_tracker (initial_restriction wv.value))
    else restriction_tracker
  match tracker with
  | some _t =>
    if 1 < wv.windows.length ∧ has_windowed_inputs m side_inputs = true then
      { res := Except.error (BeamErr.notImplementedError
          "SDFs in multiply-windowed values with windowed arguments"),
        calls := [], post_tracker := pre_tracker }
    else if restriction_provider_present m = false then
      { res := Except.error (BeamErr.valueError
          "A RestrictionTracker was provided but DoFn does not have a RestrictionTrackerParam defined"),
        calls := [], post_tracker := pre_tracker }
    else
      -- threadsafe_restriction_tracker is set to (a wrapper of) t, the EPU
      -- invoked once on the unexploded value, and the finally block clears
      -- the field again whether the body returned or raised.
      { res := epu wv, calls := [wv], post_tracker := Option.none }
  | Option.none =>
    if has_windowed_inputs m side_inputs = true ∧ wv.windows.length ≠ 1 then
      let r := run_per_window epu (explode_windows wv)
      { res := r.1, calls := r.2, post_tracker := pre_tracker }
    else
      { res := epu wv, calls := [wv], post_tracker := pre_tracker }

/-- The arguments _invoke_process_per_window binds for the EPU from one
(possibly exploded) windowed value (lines 680-734): the raw element value,
the single in-scope window when has_windowed_inputs holds (window, =
windowed_value.windows), and the timestamp and pane copied from the
windowed value. -/
structure EPUCall where
  element : Val
  window : Option Window
  timestamp : Timestamp
  pane : PaneInfo
deriving DecidableEq, Repr

/-- The window bound for the WindowParam placeholder: the unique window of
the windowed value, available only when has_windowed_inputs holds
(line 681). -/
def bound_window (m : DoFnModel) (side_inputs : List Bool)
    (wv : WindowedValue) : Option Window :=
  if has_windowed_inputs m side_inputs = true then
    match wv.windows with
    | [w] => some w
    | _ => Option.none
  else Option.none

/-- The EPU-visible view of one per-window invocation. -/
def epu_view (m : DoFnModel) (side_inputs : List Bool)
    (wv : WindowedValue) : EPUCall :=
  { element := wv.value, window := bound_window m side_inputs wv,
    timestamp := wv.timestamp, pane := wv.pane_info }

/-- The fields of PerWindowInvoker that try_split reads (lines 769-791),
together with the restriction provider collaborator. -/
structure TrySplitCfg where
  threadsafe_restriction_tracker : Option TrackerM
  current_windowed_value : Option WindowedValue
  has_watermark_estimator : Bool
  restriction_size : Val → Val → Nat

/-- One half of a split result: the windowed descriptor and the watermark
attached to it (the source returns ((descriptor, watermark), None) pairs;
the trailing None slot is constant and omitted). -/
structure SplitPart where
  wv : WindowedValue
  watermark : Option Nat
deriving DecidableEq, Repr

/-- PerWindowInvoker.try_split (lines 769-791).  est_watermark is the
watermark the estimator reports when read before the tracker split call; the
second component of the result is the estimator watermark after the call
(advanced by the tracker model during the in-flight split, making a stale
read observable).  The source reads current_watermark before calling
tracker.try_split and stamps the residual with that earlier read. -/
def PerWindowInvoker_try_split (c : TrySplitCfg) (fraction : Nat)
    (est_watermark : Nat) : Option (SplitPart × SplitPart) × Nat :=
  match c.threadsafe_restriction_tracker, c.current_windowed_value with
  | some tr, some cwv =>
    let current_watermark : Option Nat :=
      if c.has_watermark_estimator then some est_watermark else Option.none
    let est_after := tr.watermark_after est_watermark
    match tr.try_split_fn fraction with
    | some pr =>
      let element := cwv.value
      let primary_size := c.restriction_size element pr.1
      let residual_size := c.restriction_size element pr.2
      (some
        ({ wv := cwv.with_value
              (Val.pair (Val.pair element pr.1) (Val.nat primary_size)),
           watermark := Option.none },
         { wv := cwv.with_value
              (Val.pair (Val.pair element pr.2) (Val.nat residual_size)),
           watermark := current_watermark }),
       est_after)
    | Option.none => (Option.none, est_after)
  | _, _ => (Option.none, est_watermark)

/-- PerWindowInvoker.current_element_progress (lines 793-797). -/
def current_element_progress (tracker : Option TrackerM) : Option Nat :=
  tracker.map fun tr => tr.current_progress

/-- A Python exception as the failure augmenter sees it: its class name, its
first argument (the message), whether it already carries the
_tagged_with_step marker, and whether type(exn)(augmented_message) plus the
attribute write succeed (the bare except at line 945 catches any failure of
that reconstruction). -/
structure Exn where
  kind : String
  msg : String
  tagged_with_step : Bool
  reconstructible : Bool
deriving DecidableEq, Repr

/-- The last line of traceback.format_exception_only: the class name and the
message. -/
def exn_rendered (e : Exn) : String :=
  e.kind ++ ": " ++ e.msg

/-- The step identity suffix appended to augmented messages.  The source
formats it as " [while running ...]" with the step name in single quotes;
the quote characters are elided here. -/
def step_suffix (step_name : String) : String :=
  " [while running " ++ step_name ++ "]"

/-- DoFnRunner._reraise_augmented (lines 935-952): already-tagged faults and
faults with no step identity (step name None or empty, both falsy) are
re-raised unchanged; otherwise the same exception kind is rebuilt with the
suffixed message and tagged, falling back to a RuntimeError carrying the
rendered original plus the suffix when reconstruction fails. -/
def reraise_augmented (step_name : Option String) (exn : Exn) : Exn :=
  if exn.tagged_with_step = true ∨ (step_name.getD "") = "" then exn
  else
    let ann := step_suffix (step_name.getD "")
    if exn.reconstructible then
      { exn with msg := exn.msg ++ ann, tagged_with_step := true }
    else
      { kind := "RuntimeError", msg := exn_rendered exn ++ ann,
        tagged_with_step := true, reconstructible := true }

/-- The bundle-driver operations of DoFnRunner. -/
inductive DriverOp where
  | process
  | process_with_sized_restriction
  | process_user_timer
  | start
  | finish
  | setup
  | teardown
deriving DecidableEq, Repr

/-- Which driver operations funnel an escaping fault through
_reraise_augmented: process (line 880), process_user_timer (line 901), and
start, finish, setup, teardown via _invoke_bundle_method and
_invoke_lifecycle_method (lines 906-918).  process_with_sized_restriction
(lines 885-891) calls invoke_process with no try block. -/
def op_augments_faults : DriverOp → Bool
  | DriverOp.process_with_sized_restriction => false
  | _ => true

/-- One driver operation viewed at its fault boundary: the underlying
invocation either returns or raises, and a raised fault is augmented exactly
when the operation wraps it in the except handler. -/
def driver_invoke (step_name : Option String) (op : DriverOp)
    (body : Except Exn Unit) : Except Exn Unit :=
  match body with
  | Except.ok _ => Except.ok ()
  | Except.error e =>
    Except.error
      (if op_augments_faults op then reraise_augmented step_name e else e)

/-- Concrete two-window input element used by several witnesses: value 7 at
timestamp 3, in windows 1 and 2, with pane 5. -/
def fix_wv : WindowedValue :=
  { value := Val.nat 7, timestamp := 3, windows := [1, 2], pane_info := 5 }

/-- A DoFn whose process method requests only the Window parameter. -/
def fix_window_dofn : DoFnModel :=
  { process_defaults := [Param.WindowParam], start_bundle_defaults := [],
    finish_bundle_defaults := [], setup_defaults := [],
    teardown_defaults := [], is_stateful := false }

/-- A plain DoFn: no special parameters anywhere, not stateful. -/
def fix_plain_dofn : DoFnModel :=
  { process_defaults := [], start_bundle_defaults := [],
    finish_bundle_defaults := [], setup_defaults := [],
    teardown_defaults := [], is_stateful := false }

/-- A stateful DoFn with no special process parameters. -/
def fix_stateful_dofn : DoFnModel :=
  { process_defaults := [], start_bundle_defaults := [],
    finish_bundle_defaults := [], setup_defaults := [],
    teardown_defaults := [], is_stateful := true }

/-- A concrete tracker: splits any fraction into restrictions 1 and 2,
reports progress 4, and advances the ambient watermark by one during an
in-flight split call. -/
def fix_tracker : TrackerM :=
  { try_split_fn := fun _ => some (Val.nat 1, Val.nat 2),
    current_progress := 4, watermark_after := fun w => w + 1 }

/-- An EPU body that always returns normally. -/
def fix_epu_ok : WindowedValue → Except BeamErr Unit := fun _ => Except.ok ()

/-- A split configuration with active tracker and element, an estimator, and
a size function reading the Nat inside a restriction. -/
def fix_split_cfg : TrySplitCfg :=
  { threadsafe_restriction_tracker := some fix_tracker,
    current_windowed_value := some fix_wv,
    has_watermark_estimator := true,
    restriction_size := fun _ r =>
      match r with
      | Val.nat n => n
      | _ => 0 }

/-- An untagged, reconstructible fault not yet tagged with a step. -/
def fix_exn : Exn :=
  { kind := "ValueError", msg := "boom", tagged_with_step := false,
    reconstructible := true }

theorem listMul_length (l : List α) (n : Nat) :
    (listMul l n).length = n * l.length := by
  induction n with
  | zero => simp [listMul]
  | succ k ih => simp [listMul, ih, Nat.succ_mul]; omega

/-- C1 counterexample: on the two-window input fix_wv with a single plain
emitted value 9, process_outputs performs exactly one dispatch to the main
receiver (a single WindowedValue carrying both input windows), not the two
dispatches the claim requires. -/
theorem c1_counterexample :
    process_outputs (fun _ _ => []) [] fix_wv
        (some [{ tag := Option.none, raw := RawResult.plain (Val.nat 9) }]) =
      Except.ok
        ([(Option.none,
           { value := Val.nat 9, timestamp := 3, windows := [1, 2],
             pane_info := 5 })],
         [{ tag := Option.none, raw := RawResult.plain (Val.nat 9) }]) ∧
    [((Option.none : Option String),
      ({ value := Val.nat 9, timestamp := 3, windows := [1, 2],
         pane_info := 5 } : WindowedValue))].length ≠ 2 :=
  ⟨rfl, by decide⟩

/-- C1 (amended): for every input WindowedValue carrying exactly two windows
and every process result that is a plain value, process_outputs dispatches
exactly one WindowedValue to the main receiver, carrying the emitted value,
the input timestamp and the full two-element input window list (not one
dispatch per window). -/
theorem c1_theorem (assign : Timestamp → Val → List Window)
    (tags : List String) (input : WindowedValue) (v : Val)
    (h2 : input.windows.length = 2) :
    process_outputs assign tags input
        (some [{ tag := Option.none, raw := RawResult.plain v }]) =
      Except.ok ([(Option.none, input.with_value v)],
                 [{ tag := Option.none, raw := RawResult.plain v }]) ∧
    (input.with_value v).value = v ∧
    (input.with_value v).timestamp = input.timestamp ∧
    (input.with_value v).windows = input.windows ∧
    [((Option.none : Option String), input.with_value v)].length ≠
      input.windows.length := by
  refine ⟨?_, rfl, rfl, rfl, ?_⟩
  · simp [process_outputs, process_outputs_go, process_one_result, unwrap_tag]
  · simp [h2]

/-- C1 witness: the amended theorem applied at the concrete two-window input
fix_wv with emitted value 0. -/
theorem c1_witness :
    fix_wv.windows.length = 2 ∧
    process_outputs (fun _ _ => []) [] fix_wv
        (some [{ tag := Option.none, raw := RawResult.plain (Val.nat 0) }]) =
      Except.ok ([(Option.none, fix_wv.with_value (Val.nat 0))],
                 [{ tag := Option.none, raw := RawResult.plain (Val.nat 0) }]) :=
  ⟨by decide,
   (c1_theorem (fun _ _ => []) [] fix_wv (Val.nat 0) (by decide)).1⟩

/-- C3 counterexample: with the two-window input fix_wv and a result that is
itself a WindowedValue with window list [4], process_outputs leaves the
result object with window list [4, 4]: the received object is not left
unchanged. -/
theorem c3_counterexample :
    process_outputs (fun _ _ => []) [] fix_wv
        (some [{ tag := Option.none,
                 raw := RawResult.windowed
                   { value := Val.nat 1, timestamp := 0, windows := [4],
                     pane_info := 2 } }]) =
      Except.ok
        ([(Option.none,
           { value := Val.nat 1, timestamp := 0, windows := [4, 4],
             pane_info := 2 })],
         [{ tag := Option.none,
            raw := RawResult.windowed
              { value := Val.nat 1, timestamp := 0, windows := [4, 4],
                pane_info := 2 } }]) ∧
    ({ tag := Option.none,
       raw := RawResult.windowed
         { value := Val.nat 1, timestamp := 0, windows := [4, 4],
           pane_info := 2 } } : ProcResult) ≠
      { tag := Option.none,
        raw := RawResult.windowed
          { value := Val.nat 1, timestamp := 0, windows := [4],
            pane_info := 2 } } :=
  ⟨rfl, by decide⟩

/-- C3 (amended): when process_outputs applies the window-multiplication
rule (input with at least two windows) to a result that is itself a
WindowedValue with a nonempty window list, it updates the received result
object in place, replacing its window list by len(input.windows) copies of
itself; the dispatched object is this updated result, which differs from the
object as received. -/
theorem c3_theorem (assign : Timestamp → Val → List Window)
    (tags : List String) (input : WindowedValue) (w : WindowedValue)
    (h2 : 2 ≤ input.windows.length) (hw : w.windows ≠ []) :
    process_outputs assign tags input
        (some [{ tag := Option.none, raw := RawResult.windowed w }]) =
      Except.ok
        ([(Option.none,
           { w with windows := listMul w.windows input.windows.length })],
         [{ tag := Option.none,
            raw := RawResult.windowed
              { w with
                windows := listMul w.windows input.windows.length } }]) ∧
    ({ w with windows := listMul w.windows input.windows.length } :
        WindowedValue) ≠ w := by
  have hn : ¬ input.windows.length = 1 := by omega
  constructor
  · simp [process_outputs, process_outputs_go, process_one_result,
          unwrap_tag, hn]
  · intro heq
    have hwin : listMul w.windows input.windows.length = w.windows :=
      congrArg WindowedValue.windows heq
    have hk : 0 < w.windows.length := List.length_pos.mpr hw
    have hlen : input.windows.length * w.windows.length =
        1 * w.windows.length := by
      rw [one_mul, ← listMul_length, hwin]
    have : input.windows.length = 1 := Nat.eq_of_mul_eq_mul_right hk hlen
    omega

/-- C3 witness: the amended theorem applied at the concrete input fix_wv and
the concrete single-window result used in the counterexample. -/
theorem c3_witness :
    2 ≤ fix_wv.windows.length ∧
    ({ value := Val.nat 1, timestamp := 0, windows := [4],
       pane_info := 2 } : WindowedValue).windows ≠ [] ∧
    ({ value := Val.nat 1, timestamp := 0,
       windows := listMul [4] fix_wv.windows.length,
       pane_info := 2 } : WindowedValue) ≠
      { value := Val.nat 1, timestamp := 0, windows := [4], pane_info := 2 } :=
  ⟨by decide, by decide,
   (c3_theorem (fun _ _ => []) [] fix_wv
     { value := Val.nat 1, timestamp := 0, windows := [4], pane_info := 2 }
     (by decide) (by decide)).2⟩

/-- C4 counterexample: a fault escaping process_with_sized_restriction with
a known step identity leaves the bundle driver unchanged and untagged; the
claim requires every bundle-driver operation, this one included, to leave
the fault annotated with the step identity. -/
theorem c4_counterexample :
    driver_invoke (some "step1") DriverOp.process_with_sized_restriction
        (Except.error fix_exn) = Except.error fix_exn ∧
    fix_exn.tagged_with_step = false ∧
    fix_exn.msg = "boom" :=
  ⟨rfl, rfl, rfl⟩

/-- C4 (amended): for faults thrown during process, process_user_timer,
start, finish, setup and teardown the augmentation contract holds (untagged
faults with a known step are rebuilt with the suffixed message, or replaced
by a RuntimeError carrying the rendered original plus the suffix when the
kind cannot be rebuilt; tagged faults and faults with no step identity pass
unchanged, and augmentation is idempotent), while a fault thrown during
process_with_sized_restriction propagates with no annotation at all. -/
theorem c4_theorem :
    (∀ (step : Option String) (op : DriverOp) (e : Exn),
      op ≠ DriverOp.process_with_sized_restriction →
      driver_invoke step op (Except.error e) =
        Except.error (reraise_augmented step e)) ∧
    (∀ (step : Option String) (e : Exn),
      driver_invoke step DriverOp.process_with_sized_restriction
        (Except.error e) = Except.error e) ∧
    (∀ (step : Option String) (e : Exn), e.tagged_with_step = true →
      reraise_augmented step e = e) ∧
    (∀ e : Exn, reraise_augmented Option.none e = e) ∧
    (∀ (s : String) (e : Exn), s ≠ "" → e.tagged_with_step = false →
      e.reconstructible = true →
      reraise_augmented (some s) e =
        { e with msg := e.msg ++ step_suffix s, tagged_with_step := true }) ∧
    (∀ (s : String) (e : Exn), s ≠ "" → e.tagged_with_step = false →
      e.reconstructible = false →
      reraise_augmented (some s) e =
        { kind := "RuntimeError", msg := exn_rendered e ++ step_suffix s,
          tagged_with_step := true, reconstructible := true }) ∧
    (∀ (step : Option String) (e : Exn),
      reraise_augmented step (reraise_augmented step e) =
        reraise_augmented step e) := by
  refine ⟨?_, ?_, ?_, ?_, ?_, ?_, ?_⟩
  · intro step op e hop
    cases op <;> simp [driver_invoke, op_augments_faults] at hop ⊢
  · intro step e
    simp [driver_invoke, op_augments_faults]
  · intro step e he
    simp [reraise_augmented, he]
  · intro e
    simp [reraise_augmented]
  · intro s e hs he hr
    simp [reraise_augmented, he, hs, hr]
  · intro s e hs he hr
    simp [reraise_augmented, he, hs, hr]
  · intro step e
    by_cases h1 : e.tagged_with_step = true ∨ step.getD "" = ""
    · have hin : reraise_augmented step e = e := by
        unfold reraise_augmented
        rw [if_pos h1]
      simp only [hin]
    · have htag : (reraise_augmented step e).tagged_with_step = true := by
        unfold reraise_augmented
        rw [if_neg h1]
        by_cases h2 : e.reconstructible = true <;> simp [h2]
      set r := reraise_augmented step e with hr
      unfold reraise_augmented
      rw [if_pos (Or.inl htag)]

/-- C4 witness: the augmentation conjunct of the amended theorem applied to
the concrete untagged reconstructible fault fix_exn at step s1. -/
theorem c4_witness :
    reraise_augmented (some "s1") fix_exn =
      { fix_exn with
          msg := fix_exn.msg ++ step_suffix "s1", tagged_with_step := true } :=
  c4_theorem.2.2.2.2.1 "s1" fix_exn (by decide) rfl rfl

/-- C5: try_split returns a primary and residual descriptor, each carrying
the element, the restriction and a size obtained from the restriction
provider, whenever a tracker is active for the current element and the
tracker accepts the split; the residual carries the estimator watermark read
before the tracker split call (the post-call estimator state is returned
separately and may already have advanced); and the call returns nothing when
no tracker is active, no current element is set, or the tracker declines. -/
theorem c5_theorem :
    (∀ (c : TrySplitCfg) (tr : TrackerM) (cwv : WindowedValue)
        (f est : Nat) (p r : Val),
      c.threadsafe_restriction_tracker = some tr →
      c.current_windowed_value = some cwv →
      tr.try_split_fn f = some (p, r) →
      PerWindowInvoker_try_split c f est =
        (some
          ({ wv := cwv.with_value (Val.pair (Val.pair cwv.value p)
                (Val.nat (c.restriction_size cwv.value p))),
             watermark := Option.none },
           { wv := cwv.with_value (Val.pair (Val.pair cwv.value r)
                (Val.nat (c.restriction_size cwv.value r))),
             watermark :=
               if c.has_watermark_estimator then some est
               else Option.none }),
         tr.watermark_after est)) ∧
    (∀ (c : TrySplitCfg) (f est : Nat),
      c.threadsafe_restriction_tracker.isNone = true ∨
        c.current_windowed_value.isNone = true →
      (PerWindowInvoker_try_split c f est).1 = Option.none) ∧
    (∀ (c : TrySplitCfg) (tr : TrackerM) (cwv : WindowedValue) (f est : Nat),
      c.threadsafe_restriction_tracker = some tr →
      c.current_windowed_value = some cwv →
      tr.try_split_fn f = Option.none →
      (PerWindowInvoker_try_split c f est).1 = Option.none) := by
  refine ⟨?_, ?_, ?_⟩
  · intro c tr cwv f est p r htr hcwv hsplit
    simp [PerWindowInvoker_try_split, htr, hcwv, hsplit]
  · intro c f est h
    rcases h with h | h
    · rw [Option.isNone_iff_eq_none] at h
      simp [PerWindowInvoker_try_split, h]
    · rw [Option.isNone_iff_eq_none] at h
      cases hc : c.threadsafe_restriction_tracker <;>
        simp [PerWindowInvoker_try_split, h, hc]
  · intro c tr cwv f est htr hcwv hsplit
    simp [PerWindowInvoker_try_split, htr, hcwv, hsplit]

/-- C5 witness: the accepting conjunct applied to the concrete configuration
fix_split_cfg at fraction 9 with the estimator at watermark 10; the residual
is stamped with the pre-split watermark 10 even though the estimator has
advanced to 11 by the time the split call returns. -/
theorem c5_witness :
    PerWindowInvoker_try_split fix_split_cfg 9 10 =
      (some
        ({ wv := fix_wv.with_value (Val.pair (Val.pair fix_wv.value
              (Val.nat 1)) (Val.nat (fix_split_cfg.restriction_size
                fix_wv.value (Val.nat 1)))),
           watermark := Option.none },
         { wv := fix_wv.with_value (Val.pair (Val.pair fix_wv.value
              (Val.nat 2)) (Val.nat (fix_split_cfg.restriction_size
                fix_wv.value (Val.nat 2)))),
           watermark :=
             if fix_split_cfg.has_watermark_estimator then some 10
             else Option.none }),
       fix_tracker.watermark_after 10) ∧
    (if fix_split_cfg.has_watermark_estimator then some 10
     else (Option.none : Option Nat)) = some 10 ∧
    fix_tracker.watermark_after 10 = 11 :=
  ⟨c5_theorem.1 fix_split_cfg fix_tracker fix_wv 9 10 (Val.nat 1) (Val.nat 2)
     rfl rfl rfl, rfl, rfl⟩

/-- C6 counterexample: with process invocation optimization disabled,
create_invoker selects SimpleInvoker even though a side input is present, so
the selection is not exactly characterized by the claimed condition. -/
theorem c6_counterexample :
    create_invoker
        { process_defaults := [], start_bundle_defaults := [],
          finish_bundle_defaults := [], setup_defaults := [],
          teardown_defaults := [], is_stateful := false }
        [true] [] [] false = InvokerKind.simpleInvoker ∧
    ([true] : List Bool).isEmpty = false :=
  ⟨rfl, rfl⟩

/-- C6 (amended): create_invoker selects SimpleInvoker exactly when process
invocation optimization is disabled, or when the process method declares no
defaulted parameters, there are no side inputs, no extra positional or
keyword input arguments, and the DoFn is not stateful; under the enabled
default the selection matches the claimed condition, and it is a pure
function of these construction-time inputs. -/
theorem c6_theorem (m : DoFnModel) (si : List Bool) (ia : List Val)
    (ik : List (String × Val)) :
    (create_invoker m si ia ik true = InvokerKind.simpleInvoker ↔
      (si = [] ∧ ia = [] ∧ ik = [] ∧ m.process_defaults = [] ∧
       m.is_stateful = false)) ∧
    (∀ pi : Bool, create_invoker m si ia ik pi = InvokerKind.simpleInvoker ↔
      (pi = false ∨
       (si = [] ∧ ia = [] ∧ ik = [] ∧ m.process_defaults = [] ∧
        m.is_stateful = false))) := by
  constructor
  · cases hst : m.is_stateful <;>
      simp [create_invoker, List.isEmpty_iff, hst]
  · intro pi
    cases pi
    · simp [create_invoker]
    · cases hst : m.is_stateful <;>
        simp [create_invoker, List.isEmpty_iff, hst]

/-- C7 counterexample: a DoFn whose setup method repeats the Window role
twice passes signature validation, although the claim requires construction
to fail when a role appears twice in any one lifecycle method. -/
theorem c7_counterexample :
    DoFnSignature_validate
        { process_defaults := [], start_bundle_defaults := [],
          finish_bundle_defaults := [],
          setup_defaults := [Param.WindowParam, Param.WindowParam],
          teardown_defaults := [], is_stateful := false } =
      Except.ok () ∧
    ¬ (([Param.WindowParam, Param.WindowParam] :
        List Param).filterMap Param.param_id).Nodup :=
  ⟨rfl, by decide⟩

/-- C7 (amended): signature construction fails with a ValueError (the
SignatureError class) when a parameter role is repeated among the process
method defaults, or when a process-only role appears among the start-bundle
or finish-bundle defaults; the validation is eager, so when construction
succeeds the process roles are duplicate-free and the bundle methods carry
no process-only role.  Setup and teardown defaults are never validated. -/
theorem c7_theorem (m : DoFnModel) :
    (¬ (m.process_defaults.filterMap Param.param_id).Nodup →
      DoFnSignature_validate m =
        Except.error (BeamErr.valueError
          "DoFn has duplicate process method parameters")) ∧
    ((m.start_bundle_defaults.any Param.is_dofn_process_param = true ∨
      m.finish_bundle_defaults.any Param.is_dofn_process_param = true) →
      ∃ msg, DoFnSignature_validate m =
        Except.error (BeamErr.valueError msg)) ∧
    (DoFnSignature_validate m = Except.ok () →
      (m.process_defaults.filterMap Param.param_id).Nodup ∧
      m.start_bundle_defaults.any Param.is_dofn_process_param = false ∧
      m.finish_bundle_defaults.any Param.is_dofn_process_param = false) := by
  refine ⟨?_, ?_, ?_⟩
  · intro hdup
    simp [DoFnSignature_validate, validate_process, hdup]
  · intro h
    by_cases hdup : (m.process_defaults.filterMap Param.param_id).Nodup
    · rcases h with h | h
      · refine ⟨"process method-only parameter cannot be used in a bundle method", ?_⟩
        simp [DoFnSignature_validate, validate_process, hdup,
          validate_bundle_method, h]
      · by_cases hs : m.start_bundle_defaults.any Param.is_dofn_process_param = true
        · refine ⟨"process method-only parameter cannot be used in a bundle method", ?_⟩
          simp [DoFnSignature_validate, validate_process, hdup,
            validate_bundle_method, hs]
        · refine ⟨"process method-only parameter cannot be used in a bundle method", ?_⟩
          simp [DoFnSignature_validate, validate_process, hdup,
            validate_bundle_method, hs, h]
    · exact ⟨"DoFn has duplicate process method parameters",
        by simp [DoFnSignature_validate, validate_process, hdup]⟩
  · intro hok
    by_cases hdup : (m.process_defaults.filterMap Param.param_id).Nodup
    · by_cases hs : m.start_bundle_defaults.any Param.is_dofn_process_param = true
      · simp [DoFnSignature_validate, validate_process, hdup,
          validate_bundle_method, hs] at hok
      · by_cases hf : m.finish_bundle_defaults.any Param.is_dofn_process_param = true
        · simp [DoFnSignature_validate, validate_process, hdup,
            validate_bundle_method, hs, hf] at hok
        · exact ⟨hdup, Bool.eq_false_iff.mpr hs, Bool.eq_false_iff.mpr hf⟩
    · simp [DoFnSignature_validate, validate_process, hdup] at hok

/-- C7 witness: the duplicate-process-role conjunct applied to a DoFn whose
process method repeats the Window role. -/
theorem c7_witness :
    DoFnSignature_validate
        { process_defaults := [Param.WindowParam, Param.WindowParam],
          start_bundle_defaults := [], finish_bundle_defaults := [],
          setup_defaults := [], teardown_defaults := [],
          is_stateful := false } =
      Except.error (BeamErr.valueError
        "DoFn has duplicate process method parameters") :=
  (c7_theorem
    { process_defaults := [Param.WindowParam, Param.WindowParam],
      start_bundle_defaults := [], finish_bundle_defaults := [],
      setup_defaults := [], teardown_defaults := [],
      is_stateful := false }).1 (by decide)

/-- C2 counterexample: exploding the two-window input fix_wv (pane 5) for a
Window-requesting DoFn yields per-window values carrying the default
unknown pane, not the original pane 5, so the claim that each exploded value
carries the original pane info fails. -/
theorem c2_counterexample :
    (invoke_process fix_window_dofn [] (fun _ => Val.none)
        (fun _ => fix_tracker) fix_epu_ok Option.none fix_wv
        Option.none).calls =
      [{ value := Val.nat 7, timestamp := 3, windows := [1],
         pane_info := PANE_INFO_UNKNOWN },
       { value := Val.nat 7, timestamp := 3, windows := [2],
         pane_info := PANE_INFO_UNKNOWN }] ∧
    fix_wv.pane_info = 5 ∧
    (5 : PaneInfo) ≠ PANE_INFO_UNKNOWN :=
  ⟨rfl, rfl, by decide⟩

/-- C2 (amended): for every non-splittable EPU whose process method requests
the Window parameter and every WindowedValue with window list [w1, w2],
invoke_process calls the EPU exactly twice, once with window w1 and once
with window w2, each call seeing the original element value and timestamp;
each exploded single-window WindowedValue carries the original value and
timestamp but the default unknown pane, not the original pane info. -/
theorem c2_theorem (m : DoFnModel) (si : List Bool) (ir : Val → Val)
    (ct : Val → TrackerM) (epu : WindowedValue → Except BeamErr Unit)
    (pre : Option TrackerM) (v : Val) (ts : Timestamp) (pane : PaneInfo)
    (w1 w2 : Window)
    (hwin : m.process_defaults.contains Param.WindowParam = true)
    (hsdf : is_splittable_dofn m = false)
    (hepu : ∀ x, epu x = Except.ok ()) :
    (invoke_process m si ir ct epu pre
        { value := v, timestamp := ts, windows := [w1, w2],
          pane_info := pane } Option.none).calls =
      [WindowedValue.mk3 v ts [w1], WindowedValue.mk3 v ts [w2]] ∧
    ((invoke_process m si ir ct epu pre
        { value := v, timestamp := ts, windows := [w1, w2],
          pane_info := pane } Option.none).calls.map (epu_view m si)) =
      [{ element := v, window := some w1, timestamp := ts,
         pane := PANE_INFO_UNKNOWN },
       { element := v, window := some w2, timestamp := ts,
         pane := PANE_INFO_UNKNOWN }] ∧
    (invoke_process m si ir ct epu pre
        { value := v, timestamp := ts, windows := [w1, w2],
          pane_info := pane } Option.none).res = Except.ok () := by
  have hmem : Param.WindowParam ∈ m.process_defaults := by
    simpa using hwin
  have hwi : has_windowed_inputs m si = true := by
    simp [has_windowed_inputs, hmem]
  refine ⟨?_, ?_, ?_⟩ <;>
    simp [invoke_process, hsdf, hwi, explode_windows, run_per_window, hepu,
      epu_view, bound_window, WindowedValue.mk3]

/-- C2 witness: the amended theorem applied to the Window-requesting DoFn
fixture on a concrete two-window element. -/
theorem c2_witness :
    fix_window_dofn.process_defaults.contains Param.WindowParam = true ∧
    (invoke_process fix_window_dofn [] (fun _ => Val.none)
        (fun _ => fix_tracker) fix_epu_ok Option.none
        { value := Val.nat 7, timestamp := 3, windows := [1, 2],
          pane_info := 5 } Option.none).calls =
      [WindowedValue.mk3 (Val.nat 7) 3 [1],
       WindowedValue.mk3 (Val.nat 7) 3 [2]] :=
  ⟨by decide,
   (c2_theorem fix_window_dofn [] (fun _ => Val.none) (fun _ => fix_tracker)
     fix_epu_ok Option.none (Val.nat 7) 3 5 1 2 (by decide) (by decide)
     (fun _ => rfl)).1⟩

/-- C8: whenever a restriction tracker is present (supplied, or derived
because the DoFn is splittable) and the incoming element carries more than
one window while the invoker has windowed inputs, invoke_process raises the
NotImplementedError fault and the EPU is never called. -/
theorem c8_theorem (m : DoFnModel) (si : List Bool) (ir : Val → Val)
    (ct : Val → TrackerM) (epu : WindowedValue → Except BeamErr Unit)
    (pre : Option TrackerM) (wv : WindowedValue) (tr : Option TrackerM)
    (htr : tr.isSome = true ∨ is_splittable_dofn m = true)
    (hwin : 1 < wv.windows.length)
    (hwi : has_windowed_inputs m si = true) :
    (invoke_process m si ir ct epu pre wv tr).res =
      Except.error (BeamErr.notImplementedError
        "SDFs in multiply-windowed values with windowed arguments") ∧
    (invoke_process m si ir ct epu pre wv tr).calls = [] := by
  cases tr with
  | some t =>
    constructor <;> simp [invoke_process, hwin, hwi]
  | none =>
    rcases htr with h | h
    · simp at h
    · constructor <;> simp [invoke_process, h, hwin, hwi]

/-- C8 witness: the theorem applied to the stateful DoFn fixture with a
supplied tracker on the two-window element fix_wv. -/
theorem c8_witness :
    (some fix_tracker).isSome = true ∧
    (invoke_process fix_stateful_dofn [] (fun _ => Val.none)
        (fun _ => fix_tracker) fix_epu_ok Option.none fix_wv
        (some fix_tracker)).res =
      Except.error (BeamErr.notImplementedError
        "SDFs in multiply-windowed values with windowed arguments") :=
  ⟨rfl,
   (c8_theorem fix_stateful_dofn [] (fun _ => Val.none) (fun _ => fix_tracker)
     fix_epu_ok Option.none fix_wv (some fix_tracker) (Or.inl rfl)
     (by decide) (by decide)).1⟩

/-- C9 counterexample: a start_bundle returning an empty (but non-None)
sequence produces no output, yet the invocation is rejected with the
RuntimeError rather than succeeding as the claim requires. -/
theorem c9_counterexample :
    start_bundle_outputs (some []) =
      (Except.error (BeamErr.runtimeError
        "Start Bundle should not output any elements"), []) ∧
    ([] : List ProcResult).length = 0 :=
  ⟨rfl, rfl⟩

/-- C9 (amended): every non-None start_bundle result, empty or not, is
rejected with a fatal RuntimeError and nothing is dispatched to any
receiver; a start_bundle returning None succeeds without dispatching
anything. -/
theorem c9_theorem (rs : List ProcResult) :
    start_bundle_outputs (some rs) =
      (Except.error (BeamErr.runtimeError
        "Start Bundle should not output any elements"), []) ∧
    start_bundle_outputs Option.none = (Except.ok (), []) :=
  ⟨rfl, rfl⟩

/-- C10 counterexample: a tracker supplied to a DoFn with no
restriction-tracker parameter does not always produce the ValueError fault:
on a multi-window element with windowed inputs the NotImplementedError
fault is raised instead. -/
theorem c10_counterexample :
    (invoke_process fix_stateful_dofn [] (fun _ => Val.none)
        (fun _ => fix_tracker) fix_epu_ok Option.none fix_wv
        (some fix_tracker)).res =
      Except.error (BeamErr.notImplementedError
        "SDFs in multiply-windowed values with windowed arguments") ∧
    restriction_provider_present fix_stateful_dofn = false ∧
    (∀ msg : String,
      (Except.error (BeamErr.notImplementedError
        "SDFs in multiply-windowed values with windowed arguments") :
          Except BeamErr Unit) ≠
      Except.error (BeamErr.valueError msg)) := by
  refine ⟨rfl, rfl, ?_⟩
  intro msg h
  simp at h

/-- C10 (amended): a tracker supplied for an EPU with no restriction-tracker
parameter yields the ValueError fault before the EPU is invoked, except that
on a multi-window element with windowed inputs the NotImplementedError
fault takes precedence (also before the EPU is invoked); and starting from a
cleared handle, invoke_process always leaves the thread-safe tracker handle
cleared whether it returns or raises, so a try_split or
current_element_progress issued between elements returns nothing. -/
theorem c10_theorem (m : DoFnModel) (si : List Bool) (ir : Val → Val)
    (ct : Val → TrackerM) (epu : WindowedValue → Except BeamErr Unit)
    (wv : WindowedValue) (t : TrackerM) :
    (restriction_provider_present m = false →
      ¬ (1 < wv.windows.length ∧ has_windowed_inputs m si = true) →
      (invoke_process m si ir ct epu Option.none wv (some t)).res =
        Except.error (BeamErr.valueError
          "A RestrictionTracker was provided but DoFn does not have a RestrictionTrackerParam defined") ∧
      (invoke_process m si ir ct epu Option.none wv (some t)).calls = []) ∧
    (restriction_provider_present m = false →
      (1 < wv.windows.length ∧ has_windowed_inputs m si = true) →
      (invoke_process m si ir ct epu Option.none wv (some t)).res =
        Except.error (BeamErr.notImplementedError
          "SDFs in multiply-windowed values with windowed arguments") ∧
      (invoke_process m si ir ct epu Option.none wv (some t)).calls = []) ∧
    (∀ tr : Option TrackerM,
      (invoke_process m si ir ct epu Option.none wv tr).post_tracker =
        Option.none) ∧
    (∀ f est : Nat,
      (PerWindowInvoker_try_split
        { threadsafe_restriction_tracker := Option.none,
          current_windowed_value := some wv,
          has_watermark_estimator := true,
          restriction_size := fun _ _ => 0 } f est).1 = Option.none) ∧
    current_element_progress Option.none = Option.none := by
  refine ⟨?_, ?_, ?_, ?_, rfl⟩
  · intro hprov hcond
    constructor <;> simp [invoke_process, hprov, hcond]
  · intro hprov hcond
    constructor <;> simp [invoke_process, hprov, hcond]
  · intro tr
    cases tr with
    | some t2 =>
      by_cases h1 : 1 < wv.windows.length ∧ has_windowed_inputs m si = true
      · simp [invoke_process, h1]
      · by_cases h2 : restriction_provider_present m = false <;>
          simp [invoke_process, h1, h2]
    | none =>
      by_cases hs : is_splittable_dofn m = true
      · by_cases h1 : 1 < wv.windows.length ∧ has_windowed_inputs m si = true
        · simp [invoke_process, hs, h1]
        · by_cases h2 : restriction_provider_present m = false <;>
            simp [invoke_process, hs, h1, h2]
      · by_cases h3 : has_windowed_inputs m si = true ∧
            wv.windows.length ≠ 1 <;>
          simp [invoke_process, hs, h3]
  · intro f est
    simp [PerWindowInvoker_try_split]

/-- C10 witness: the ValueError conjunct applied to the plain DoFn fixture
on a single-window element with a supplied tracker. -/
theorem c10_witness :
    restriction_provider_present fix_plain_dofn = false ∧
    (invoke_process fix_plain_dofn [] (fun _ => Val.none)
        (fun _ => fix_tracker) fix_epu_ok Option.none
        { value := Val.nat 0, timestamp := 0, windows := [3], pane_info := 0 }
        (some fix_tracker)).res =
      Except.error (BeamErr.valueError
        "A RestrictionTracker was provided but DoFn does not have a RestrictionTrackerParam defined") :=
  ⟨rfl,
   ((c10_theorem fix_plain_dofn [] (fun _ => Val.none) (fun _ => fix_tracker)
     fix_epu_ok
     { value := Val.nat 0, timestamp := 0, windows := [3], pane_info := 0 }
     fix_tracker).1 rfl (by decide)).1⟩

end Beam
